import Mathlib

/-!
Verification development for the Twitter automation subsystem of the
MEME-CORP/solexa repository: the tweet submission queue and worker
(`src/twitter_bot/twitter_service.py`), the browser session driver
(`src/twitter_bot/scraper.py`), the authenticator
(`src/twitter_bot/authenticator.py`) and the verification session
registry (`src/verification_manager.py`).

The Python code is shallowly embedded: each method becomes a pure Lean
function over an explicit state record; external effects (the posting
routine `TweetManager.send_tweet`, driver construction, element lookup)
become oracle parameters recording their outcomes, and each function
additionally returns the list of contents passed to the posting routine
so that invocation counts are observable.  Exception handlers in the
source are translated into the corresponding result values, so the
embedded functions are total exactly where the source catches.
-/

namespace TS

/-- A Tweet Work Item, mirroring the `tweet_data` dict built in
`TwitterService.send_tweet` (content, priority, source, timestamp). -/
structure TweetData where
  content : String
  priority : Nat
  source : String
  timestamp : Nat
deriving DecidableEq

/-- The mutable fields of the `TwitterService` singleton that the embedded
methods touch: `self.scraper`/`self.tweet_manager`/`self.driver` are
modelled by presence flags (the claims only observe them through
`is_initialized` and the `if priority == 0 and self.tweet_manager` guard),
plus `self.is_initializing`, `self.tweet_queue` and `self.running`. -/
structure ServiceState where
  scraperPresent : Bool
  tweetManagerPresent : Bool
  driverPresent : Bool
  isInitializing : Bool
  tweetQueue : List TweetData
  running : Bool
deriving DecidableEq

/-- Outcomes of the external calls made by `TwitterService.initialize`:
the result of `self.scraper.initialize()`, whether `self.scraper.driver`
is non-None after a failed initialize, and the results of
`is_verification_screen`, `handle_verification_screen` and
`complete_login_after_verification`. -/
structure InitEnv where
  scraperInitOk : Bool
  driverPresentAfterFailure : Bool
  verificationScreen : Bool
  verificationHandled : Bool
  completeLoginOk : Bool

/-- `TwitterService.is_initialized`: `self.scraper is not None and
self.tweet_manager is not None`. -/
def isInit (s : ServiceState) : Bool :=
  s.scraperPresent && s.tweetManagerPresent

/-- `TwitterService.initialize` (the Python method named `initialize`):
rejects re-entry while `is_initializing`; short-circuits when scraper and
tweet manager are both present; otherwise constructs the scraper
(assigning `self.scraper` BEFORE its `initialize()` result is known), runs
the verification-recovery branch, and on overall failure returns false
leaving the partially constructed scraper assigned.  On success it stores
the driver, constructs the tweet manager, and starts the worker
(`self.running = True`). -/
def initService (env : InitEnv) (s : ServiceState) : Bool × ServiceState :=
  if s.isInitializing then (false, s)
  else if s.scraperPresent && s.tweetManagerPresent then (true, s)
  else
    let s1 := { s with isInitializing := true, scraperPresent := true }
    let success :=
      if !env.scraperInitOk && env.driverPresentAfterFailure && env.verificationScreen then
        env.verificationHandled && env.completeLoginOk
      else env.scraperInitOk
    if success then
      (true, { s1 with driverPresent := true, tweetManagerPresent := true,
                       running := true, isInitializing := false })
    else (false, { s1 with isInitializing := false })

/-- The body of `TwitterService.send_tweet` after the initialization
guard: build `tweet_data`, `self.tweet_queue.put(tweet_data)`
(unconditionally), then for `priority == 0 and self.tweet_manager` call
`self.tweet_manager.send_tweet(content)` on the calling thread, returning
its direct success (an exception in the posting routine is caught and
converted to `return False`).  The third component is the list of
contents passed to the posting routine during this call. -/
def sendCore (post : String → Bool) (now : Nat) (s : ServiceState)
    (content : String) (priority : Nat) (source : String) :
    Bool × ServiceState × List String :=
  let item : TweetData := ⟨content, priority, source, now⟩
  let s1 := { s with tweetQueue := s.tweetQueue ++ [item] }
  if priority == 0 && s1.tweetManagerPresent then
    if post content then (true, s1, [content]) else (false, s1, [content])
  else (true, s1, [])

/-- `TwitterService.send_tweet`: when the service is not initialized it
attempts lazy initialization and returns false (touching neither the
queue nor the posting routine) when that fails; otherwise it runs the
queueing/fast-path body `sendCore`. -/
def sendTweet (env : InitEnv) (post : String → Bool) (now : Nat)
    (s : ServiceState) (content : String) (priority : Nat) (source : String) :
    Bool × ServiceState × List String :=
  if isInit s then sendCore post now s content priority source
  else
    let r := initService env s
    if r.1 then sendCore post now r.2 content priority source
    else (false, r.2, [])

/-- One iteration of the worker loop `TwitterService._process_tweet_queue`:
while `self.running`, if the queue is non-empty and the tweet manager is
present, pop the head and pass its content to the posting routine
(failure is logged and swallowed; the item is consumed either way).
Returns the new state and the contents posted in this iteration. -/
def workerStep (s : ServiceState) : ServiceState × List String :=
  if s.running then
    match s.tweetQueue with
    | [] => (s, [])
    | item :: rest =>
      if s.tweetManagerPresent then ({ s with tweetQueue := rest }, [item.content])
      else (s, [])
  else (s, [])

/-- `n` iterations of the worker loop, concatenating the posting log. -/
def workerRun : Nat → ServiceState → ServiceState × List String
  | 0, s => (s, [])
  | n + 1, s =>
    let r := workerStep s
    let r2 := workerRun n r.1
    (r2.1, r.2 ++ r2.2)

/-- A service state after a successful `initialize()`: scraper, tweet
manager and driver present, worker running, queue empty. -/
def readyState : ServiceState := ⟨true, true, true, false, [], true⟩

/-- An `InitEnv` in which nothing special happens (unused once the
service is already initialized). -/
def plainEnv : InitEnv := ⟨true, false, false, false, false⟩

/-- An `InitEnv` in which `scraper.initialize()` fails and no
verification recovery is possible. -/
def failEnv : InitEnv := ⟨false, false, false, false, false⟩

/-- Helper: draining a queue of length `n` with `n` worker iterations
posts exactly the queued contents in FIFO order. -/
theorem workerRun_drain (d i : Bool) (q : List TweetData) :
    (workerRun q.length ⟨true, true, d, i, q, true⟩).2 = q.map (fun x => x.content) := by
  induction q with
  | nil => rfl
  | cons x rest ih =>
    simp only [List.length_cons, workerRun, workerStep, List.map_cons]
    simpa using ih

/-- Helper: the worker loop is inert on an empty queue, for any number
of iterations. -/
theorem workerRun_empty (d i : Bool) (k : Nat) :
    workerRun k ⟨true, true, d, i, [], true⟩ = (⟨true, true, d, i, [], true⟩, []) := by
  induction k with
  | zero => rfl
  | succ n ih => simp [workerRun, workerStep, ih]

/-- Helper: a single queued item is passed to the posting routine
exactly once, no matter how many worker iterations run afterwards. -/
theorem workerRun_single (d i : Bool) (item : TweetData) (k : Nat) :
    (workerRun (k + 1) ⟨true, true, d, i, [item], true⟩).2 = [item.content] := by
  simp [workerRun, workerStep, workerRun_empty]

end TS

namespace SC

/-!
Embedding of `Scraper._initialize_driver` (`src/twitter_bot/scraper.py`).
The method loops `for attempt in range(3)`.  Inside the loop body there
are two nested `try` blocks: the option-building code runs before the
inner `try`; the driver construction (`webdriver.Chrome(...)`, through
any of the three install strategies) runs inside the inner `try`, whose
`except Exception` handler RETURNS False immediately.  Only an exception
raised before the inner `try` reaches the outer handler that implements
the retry (sleep 2 seconds unless this was the last attempt).
-/

/-- Outcomes of the external calls on each loop attempt: whether the
code before the inner `try` (option building, environment reads) raises,
and whether the driver construction succeeds when reached. -/
structure DriverEnv where
  preRaises : Nat → Bool
  constructOk : Nat → Bool

/-- The loop of `Scraper._initialize_driver`, from attempt index
`attempt` with `remaining` attempts left.  Returns
(result, number of driver constructions performed, number of 2-second
backoff sleeps performed). -/
def initDriverAux (env : DriverEnv) : Nat → Nat → Nat → Nat → Bool × Nat × Nat
  | _, 0, cons, sleeps => (false, cons, sleeps)
  | attempt, r + 1, cons, sleeps =>
    if env.preRaises attempt then
      if r = 0 then (false, cons, sleeps)
      else initDriverAux env (attempt + 1) r cons (sleeps + 1)
    else
      if env.constructOk attempt then (true, cons + 1, sleeps)
      else (false, cons + 1, sleeps)

/-- `Scraper._initialize_driver`: `attempts = 3`. -/
def initDriver (env : DriverEnv) : Bool × Nat × Nat :=
  initDriverAux env 0 3 0 0

/-- A driver environment in which nothing raises before construction and
the construction itself fails on the first attempt but would succeed on
every later one. -/
def failOnceEnv : DriverEnv := ⟨fun _ => false, fun i => decide (1 ≤ i)⟩

end SC

namespace Auth

/-!
Embedding of `Authenticator.load_session` and `load_cookies`
(`src/twitter_bot/authenticator.py`).  `load_cookies` returns None when
the file is missing or unparseable (any exception is caught); the parsed
cookie list is modelled by its entries (only emptiness matters to the
control flow).  Inside `load_session`, a `NoSuchElementException` from
the post-box lookup deletes the session file and returns False; any
other exception during the restore is caught by the generic handler and
returns False WITHOUT deleting the file.
-/

/-- The session file on disk: absent, present but unreadable (invalid
JSON — `json.load` raises, caught in `load_cookies`), or a parsed
cookie jar (entries modelled by their expiry values). -/
inductive CookieFile where
  | absent
  | unreadable
  | jar (cookies : List Int)
deriving DecidableEq

/-- Outcome of the login-verification element lookup
(`find_element` on the post box) and of everything else inside the
`try` of `load_session`: the element is found, it is not found
(`NoSuchElementException`), or some other exception occurs during the
restore (navigation failure, driver error, ...). -/
inductive VerifyOutcome where
  | found
  | notFound
  | otherError
deriving DecidableEq

/-- The inputs `load_session` depends on. -/
structure AuthEnv where
  file : CookieFile
  verify : VerifyOutcome

/-- `Authenticator.load_cookies`: None when the file is absent or any
exception occurs while reading/parsing it; otherwise the parsed list. -/
def loadCookies : CookieFile → Option (List Int)
  | .absent => none
  | .unreadable => none
  | .jar cs => some cs

/-- `Authenticator.load_session`: returns the boolean result together
with the session file left on disk.  `if not cookies: return False`
covers both the None result and an empty parsed list.  On
`NoSuchElementException` from the verification lookup the session file
is removed; on any other exception the file is left in place. -/
def loadSession (env : AuthEnv) : Bool × CookieFile :=
  match loadCookies env.file with
  | none => (false, env.file)
  | some [] => (false, env.file)
  | some (_ :: _) =>
    match env.verify with
    | .found => (true, env.file)
    | .notFound => (false, .absent)
    | .otherError => (false, env.file)

end Auth

namespace VM

/-!
Embedding of `src/verification_manager.py` (`VerificationManager`).
Python dicts are modelled as insertion-ordered association lists; the
persisted JSON file is modelled as absent, corrupt (a `json.load` that
raises `JSONDecodeError`) or a parsed mapping of disk records.  Time is
an integer number of seconds (`datetime` objects compare by their
instant; `isoformat`/`fromisoformat` round-trip exactly).
-/

/-- Lookup in an insertion-ordered association list (dict read). -/
def lookupA {α : Type} : List (String × α) → String → Option α
  | [], _ => none
  | p :: rest, k => if p.1 = k then some p.2 else lookupA rest k

/-- Dict assignment: replace in place when the key exists, else append. -/
def insertA {α : Type} : List (String × α) → String → α → List (String × α)
  | [], k, v => [(k, v)]
  | p :: rest, k, v => if p.1 = k then (k, v) :: rest else p :: insertA rest k v

/-- Dict `pop`/`del`: remove the entry with the given key. -/
def eraseA {α : Type} : List (String × α) → String → List (String × α)
  | [], _ => []
  | p :: rest, k => if p.1 = k then rest else p :: eraseA rest k

/-- The `timestamp` field of a persisted record, as the code classifies
it in `_load_verifications`: an ISO string (parsed by
`datetime.fromisoformat`), a numeric value, an unparseable string, or a
missing/invalid value — the last two are replaced by `datetime.now()`. -/
inductive TsField where
  | isoTs (t : Int)
  | numTs (t : Int)
  | badTs
  | noTs
deriving DecidableEq

/-- A record as persisted in `verifications.json`.  Keys may be absent
(`Option`).  A `driver` field is carried so that "the on-disk
representation never contains the handle" is a provable property rather
than a typing artifact: `_save_verifications` skips the `driver` key, so
saving always writes `none` here. -/
structure DiskRec where
  timestamp : TsField
  screenshot_path : Option String
  status : Option String
  completed : Option Bool
  driver : Option Unit
  code : Option String
deriving DecidableEq

/-- The persisted registry file. -/
inductive RegFile where
  | absent
  | corrupt
  | valid (entries : List (String × DiskRec))
deriving DecidableEq

/-- An in-memory verification record as built by `register_verification`
or `_load_verifications`.  `completed` is `none` when the dict has no
`completed` key (as after `register_verification`). -/
structure MemRec where
  id : String
  timestamp : Int
  screenshot_path : String
  status : String
  driver : Option Unit
  completed : Option Bool
  code : Option String
deriving DecidableEq

/-- The state the class methods touch: the persisted file, the
in-memory `_verifications` dict, and the backup file written for a
corrupt registry (`<path>.corrupted`, holding a copy of the corrupt
content). -/
structure RegState where
  file : RegFile
  mem : List (String × MemRec)
  backup : Option RegFile
deriving DecidableEq

/-- Serialization of one record in `_save_verifications`: the `driver`
key is skipped, a datetime `timestamp` becomes its ISO string, all other
keys are copied. -/
def serializeRec (r : MemRec) : DiskRec :=
  ⟨.isoTs r.timestamp, some r.screenshot_path, some r.status, r.completed, none, r.code⟩

/-- `_save_verifications`: write the serialized in-memory dict. -/
def saveV (s : RegState) : RegState :=
  { s with file := .valid (s.mem.map (fun p => (p.1, serializeRec p.2))) }

/-- `register_verification`: create a pending record (timestamp now,
status "pending", the live driver reference, code None), store it and
persist immediately; returns true. -/
def registerV (now : Int) (id shot : String) (driver : Option Unit)
    (s : RegState) : Bool × RegState :=
  (true, saveV { s with mem := insertA s.mem id ⟨id, now, shot, "pending", driver, none, none⟩ })

/-- Timestamp parsing in `_load_verifications`: ISO and numeric values
parse to their instant; unparseable or missing values fall back to
`datetime.now()`. -/
def parseTs (now : Int) : TsField → Int
  | .isoTs t => t
  | .numTs t => t
  | .badTs => now
  | .noTs => now

/-- The per-record body of the `_load_verifications` loop: skip records
older than the one-hour cutoff and records marked completed; otherwise
rebuild the in-memory record with status forced to "pending", driver
None and completed False. -/
def loadRec (now : Int) (id : String) (d : DiskRec) : Option MemRec :=
  let t := parseTs now d.timestamp
  if t < now - 3600 then none
  else if d.completed.getD false || d.status = some "completed" then none
  else some ⟨id, t, d.screenshot_path.getD "", "pending", none, some false, none⟩

/-- `_load_verifications`: missing file returns false leaving memory
untouched; a corrupt file is backed up to `<path>.corrupted`, replaced
by an empty registry (`'{}'`) and false is returned with memory
untouched (the handlers catch every exception, so the embedded function
is total: loading never raises); a valid file resets the dict and
refills it with the age- and completion-filtered records. -/
def loadV (now : Int) (s : RegState) : Bool × RegState :=
  match s.file with
  | .absent => (false, s)
  | .corrupt => (false, { s with backup := some .corrupt, file := .valid [] })
  | .valid entries =>
    let mem := entries.foldl
      (fun acc p =>
        match loadRec now p.1 p.2 with
        | none => acc
        | some r => insertA acc p.1 r) []
    (true, { s with mem := mem })

/-- `list_pending_verifications`: reload from disk, then return the
records that are not completed and not older than one hour, each
projected to (timestamp, screenshot_path, "pending"). -/
def listPendingV (now : Int) (s : RegState) :
    List (String × (Int × String × String)) × RegState :=
  let s1 := (loadV now s).2
  let pending := s1.mem.foldl
    (fun acc p =>
      if p.2.completed.getD false || p.2.status = "completed" then acc
      else if p.2.timestamp < now - 3600 then acc
      else insertA acc p.1 (p.2.timestamp, p.2.screenshot_path, "pending")) []
  (pending, s1)

/-- `cancel_verification`: if the id is present, pop the record from the
dict, persist, and return true; otherwise return false. -/
def cancelV (id : String) (s : RegState) : Bool × RegState :=
  if (lookupA s.mem id).isSome then (true, saveV { s with mem := eraseA s.mem id })
  else (false, s)

/-- Entries of a registry file (empty for absent/corrupt files). -/
def fileEntries : RegFile → List (String × DiskRec)
  | .valid l => l
  | _ => []

/-- A persisted record as written for a pending verification. -/
def pendingDisk (t : Int) (shot : String) : DiskRec :=
  ⟨.isoTs t, some shot, some "pending", none, none, none⟩

/-- A persisted record marked completed. -/
def completedDisk (t : Int) (shot : String) : DiskRec :=
  ⟨.isoTs t, some shot, some "completed", some true, none, none⟩

end VM

namespace Race

/-!
Interleaving model for the two threads that touch the shared browser
handle in `twitter_service.py`: the background worker executing
`_process_tweet_queue`, and a caller executing the synchronous
priority-0 fast path of `send_tweet`.  Neither code path acquires any
lock around `self.tweet_manager.send_tweet(...)`, so the model has no
lock transitions: each thread's phases interleave freely.  A `posting`
phase is the interval during which `TweetManager.send_tweet` is
executing against the shared handle.
-/

/-- Phase of the background worker thread. -/
inductive WPhase where
  | idle
  | posting (content : String)
deriving DecidableEq

/-- Phase of a caller inside `send_tweet(content, 0, source)` on an
already-initialized service: about to enqueue, enqueued (between
`tweet_queue.put` and `tweet_manager.send_tweet`), posting, done. -/
inductive SPhase where
  | start (content : String) (source : String)
  | queued (content : String)
  | posting (content : String)
  | done (ok : Bool)
deriving DecidableEq

/-- A configuration of the two-thread system: worker phase, synchronous
caller phase, the shared queue, and the service flags the two code paths
read. -/
structure Conf where
  worker : WPhase
  sync : SPhase
  queue : List TS.TweetData
  tmPresent : Bool
  running : Bool

/-- One interleaved step.  `workerTake` is the worker popping the queue
head and entering `tweet_manager.send_tweet`; `workerDone` is that call
returning.  `syncEnqueue` is the caller's `tweet_queue.put`;
`syncBegin` is the caller's fast path entering
`tweet_manager.send_tweet`; `syncFinish` is that call returning.  No
transition acquires or releases a lock, because the source code has
none around these calls. -/
inductive Step : Conf → Conf → Prop where
  | workerTake (c : Conf) (item : TS.TweetData) (rest : List TS.TweetData) :
      c.running = true → c.tmPresent = true → c.worker = .idle →
      c.queue = item :: rest →
      Step c { c with worker := .posting item.content, queue := rest }
  | workerDone (c : Conf) (x : String) :
      c.worker = .posting x → Step c { c with worker := .idle }
  | syncEnqueue (c : Conf) (content source : String) (now : Nat) :
      c.sync = .start content source →
      Step c { c with sync := .queued content,
                      queue := c.queue ++ [⟨content, 0, source, now⟩] }
  | syncBegin (c : Conf) (content : String) :
      c.sync = .queued content → c.tmPresent = true →
      Step c { c with sync := .posting content }
  | syncFinish (c : Conf) (content : String) (ok : Bool) :
      c.sync = .posting content → Step c { c with sync := .done ok }

/-- Initial configuration: worker idle on an initialized service with an
empty queue, and a caller about to run `send_tweet("hello world", 0, "web")`. -/
def raceInit : Conf := ⟨.idle, .start "hello world" "web", [], true, true⟩

/-- Reachability along interleaved steps. -/
def Reach : Conf → Conf → Prop := Relation.ReflTransGen Step

end Race

/-- Claim C1, counterexample: in an initialized service, for
`submit("hello world", 0, "web")` with a posting routine that succeeds on
the first attempt, `submit` returns true and invokes the posting routine
once — but the item was also enqueued, so a single worker iteration
passes the same content to the posting routine a second time: the content
is posted twice in total, not exactly once as the claim states. -/
theorem C1_counterexample :
    (TS.sendTweet TS.plainEnv (fun _ => true) 5 TS.readyState "hello world" 0 "web").1 = true ∧
    (TS.sendTweet TS.plainEnv (fun _ => true) 5 TS.readyState "hello world" 0 "web").2.2 ++
      (TS.workerRun 1
        (TS.sendTweet TS.plainEnv (fun _ => true) 5 TS.readyState "hello world" 0 "web").2.1).2 =
      ["hello world", "hello world"] ∧
    ¬ ((TS.sendTweet TS.plainEnv (fun _ => true) 5 TS.readyState "hello world" 0 "web").2.2 ++
      (TS.workerRun 1
        (TS.sendTweet TS.plainEnv (fun _ => true) 5 TS.readyState "hello world" 0 "web").2.1).2 =
      ["hello world"]) := by
  refine ⟨rfl, rfl, ?_⟩
  decide

/-- Claim C1 (amended): on an initialized service with a
first-attempt-success posting routine, a priority-0 submission returns
true and passes the content to the posting routine exactly once during
the `submit` call itself, but the item is also appended to the queue,
so the worker passes the same content to the posting routine exactly
once more no matter how many worker iterations run (the item is
processed twice in total); a priority-1 submission returns true, posts
nothing synchronously, and is consumed exactly once, by the worker,
again regardless of how many worker iterations run. -/
theorem C1_amended (post : String → Bool) (now : Nat) (content source : String)
    (hpost : post content = true) :
    ((TS.sendTweet TS.plainEnv post now TS.readyState content 0 source).1 = true ∧
     (TS.sendTweet TS.plainEnv post now TS.readyState content 0 source).2.2 = [content] ∧
     (TS.sendTweet TS.plainEnv post now TS.readyState content 0 source).2.1.tweetQueue =
       [⟨content, 0, source, now⟩] ∧
     ∀ k : Nat, (TS.workerRun (k + 1)
       (TS.sendTweet TS.plainEnv post now TS.readyState content 0 source).2.1).2 = [content]) ∧
    ((TS.sendTweet TS.plainEnv post now TS.readyState content 1 source).1 = true ∧
     (TS.sendTweet TS.plainEnv post now TS.readyState content 1 source).2.2 = [] ∧
     (TS.sendTweet TS.plainEnv post now TS.readyState content 1 source).2.1.tweetQueue =
       [⟨content, 1, source, now⟩] ∧
     ∀ k : Nat, (TS.workerRun (k + 1)
       (TS.sendTweet TS.plainEnv post now TS.readyState content 1 source).2.1).2 = [content]) := by
  have h0 : TS.sendTweet TS.plainEnv post now TS.readyState content 0 source =
      (true, ⟨true, true, true, false, [⟨content, 0, source, now⟩], true⟩, [content]) := by
    simp [TS.sendTweet, TS.sendCore, TS.isInit, TS.readyState, hpost]
  have h1 : TS.sendTweet TS.plainEnv post now TS.readyState content 1 source =
      (true, ⟨true, true, true, false, [⟨content, 1, source, now⟩], true⟩, []) := by
    simp [TS.sendTweet, TS.sendCore, TS.isInit, TS.readyState]
  refine ⟨⟨by rw [h0], by rw [h0], by rw [h0],
           fun k => by rw [h0]; exact TS.workerRun_single true false ⟨content, 0, source, now⟩ k⟩,
          ⟨by rw [h1], by rw [h1], by rw [h1],
           fun k => by rw [h1]; exact TS.workerRun_single true false ⟨content, 1, source, now⟩ k⟩⟩

/-- Witness for `C1_amended` at post = always-true, content "hello world". -/
theorem C1_amended_witness :
    (fun _ : String => true) "hello world" = true ∧
    (((TS.sendTweet TS.plainEnv (fun _ => true) 5 TS.readyState "hello world" 0 "web").1 = true ∧
      (TS.sendTweet TS.plainEnv (fun _ => true) 5 TS.readyState "hello world" 0 "web").2.2 =
        ["hello world"] ∧
      (TS.sendTweet TS.plainEnv (fun _ => true) 5 TS.readyState
        "hello world" 0 "web").2.1.tweetQueue = [⟨"hello world", 0, "web", 5⟩] ∧
      ∀ k : Nat, (TS.workerRun (k + 1)
        (TS.sendTweet TS.plainEnv (fun _ => true) 5 TS.readyState
          "hello world" 0 "web").2.1).2 = ["hello world"]) ∧
     ((TS.sendTweet TS.plainEnv (fun _ => true) 5 TS.readyState "hello world" 1 "web").1 = true ∧
      (TS.sendTweet TS.plainEnv (fun _ => true) 5 TS.readyState "hello world" 1 "web").2.2 = [] ∧
      (TS.sendTweet TS.plainEnv (fun _ => true) 5 TS.readyState
        "hello world" 1 "web").2.1.tweetQueue = [⟨"hello world", 1, "web", 5⟩] ∧
      ∀ k : Nat, (TS.workerRun (k + 1)
        (TS.sendTweet TS.plainEnv (fun _ => true) 5 TS.readyState
          "hello world" 1 "web").2.1).2 = ["hello world"])) :=
  ⟨rfl, C1_amended (fun _ => true) 5 "hello world" "web" rfl⟩

/-- Claim C2: the source takes no lock around either posting path, so
from the initial configuration (worker idle, initialized service, a
caller running `submit("hello world", 0, "web")`) the interleaving in
which the caller enqueues, the worker pops the item and begins posting,
and then the caller's fast path also begins posting, is reachable: a
configuration where both threads are simultaneously executing a posting
operation against the shared browser handle.  This refutes the claimed
mutual exclusion; the spec itself (§9) marks the missing lock as a
latent race in the code, so the code, not the claim, is at fault. -/
theorem C2_race_reachable :
    ∃ c : Race.Conf, Race.Reach Race.raceInit c ∧
      (∃ x, c.worker = .posting x) ∧ (∃ y, c.sync = .posting y) := by
  refine ⟨⟨.posting "hello world", .posting "hello world", [], true, true⟩,
    ?_, ⟨"hello world", rfl⟩, ⟨"hello world", rfl⟩⟩
  have h1 : Race.Step Race.raceInit
      ⟨.idle, .queued "hello world", [⟨"hello world", 0, "web", 0⟩], true, true⟩ :=
    Race.Step.syncEnqueue Race.raceInit "hello world" "web" 0 rfl
  have h2 : Race.Step
      ⟨.idle, .queued "hello world", [⟨"hello world", 0, "web", 0⟩], true, true⟩
      ⟨.posting "hello world", .queued "hello world", [], true, true⟩ :=
    Race.Step.workerTake _ ⟨"hello world", 0, "web", 0⟩ [] rfl rfl rfl rfl
  have h3 : Race.Step
      ⟨.posting "hello world", .queued "hello world", [], true, true⟩
      ⟨.posting "hello world", .posting "hello world", [], true, true⟩ :=
    Race.Step.syncBegin _ "hello world" rfl rfl
  exact Relation.ReflTransGen.head h1 (Relation.ReflTransGen.head h2
    (Relation.ReflTransGen.single h3))

/-- Claim C3: the claim says driver construction is retried up to 3
times with a 2-second backoff, so a constructor failing once and then
succeeding should yield true.  The code disagrees: a construction
failure is caught by the inner `except Exception` handler, which
returns False immediately, so with a constructor that fails only on the
first attempt `_initialize_driver` returns false after exactly one
construction and zero backoff sleeps — the retry loop is reachable only
for exceptions raised before construction.  The docstring ("Initialize
Chrome driver with retry logic"), the `attempts = 3` scaffolding, the
per-attempt failure log and the `time.sleep(2)` show the claimed retry
is the code's own stated intent, so this is a code bug. -/
theorem C3_no_retry_on_construction_failure :
    SC.initDriver SC.failOnceEnv = (false, 1, 0) ∧
    SC.failOnceEnv.constructOk 0 = false ∧ SC.failOnceEnv.constructOk 1 = true := by
  exact ⟨rfl, rfl, rfl⟩

/-- Claim C4: on a registry file containing invalid JSON, loading does
not raise (the embedded `loadV` is total because `_load_verifications`
catches `JSONDecodeError` and every other exception) and returns false,
a backup copy of the corrupt file is created at `<path>.corrupted`, the
file is replaced with the empty valid registry `'{}'`, and a subsequent
`list_pending_verifications()` on the fresh (empty) registry returns an
empty mapping. -/
theorem C4_corrupt_recovery (now : Int) :
    (VM.loadV now ⟨.corrupt, [], none⟩).1 = false ∧
    (VM.loadV now ⟨.corrupt, [], none⟩).2.backup = some .corrupt ∧
    (VM.loadV now ⟨.corrupt, [], none⟩).2.file = .valid [] ∧
    (VM.listPendingV now (VM.loadV now ⟨.corrupt, [], none⟩).2).1 = [] :=
  ⟨rfl, rfl, rfl, rfl⟩

/-- Claim C5: registering a verification with id `i` and screenshot
reference `shot` (with a live driver handle) persists immediately a disk
record whose `driver` is absent, with status "pending" and the same
screenshot; reloading in a fresh registry instance (within the one-hour
horizon) yields an in-memory record for `i` with status "pending", the
same screenshot reference, and driver None. -/
theorem C5_round_trip (t0 t1 : Int) (i shot : String) (h : t1 - 3600 ≤ t0) :
    VM.lookupA (VM.fileEntries
        (VM.registerV t0 i shot (some ()) ⟨.absent, [], none⟩).2.file) i =
      some ⟨.isoTs t0, some shot, some "pending", none, none, none⟩ ∧
    VM.lookupA ((VM.loadV t1
        ⟨(VM.registerV t0 i shot (some ()) ⟨.absent, [], none⟩).2.file, [], none⟩).2).mem i =
      some ⟨i, t0, shot, "pending", none, some false, none⟩ := by
  have hlt : ¬ (t0 < t1 - 3600) := by omega
  constructor
  · simp [VM.registerV, VM.saveV, VM.serializeRec, VM.insertA, VM.lookupA, VM.fileEntries]
  · simp [VM.registerV, VM.saveV, VM.serializeRec, VM.insertA, VM.lookupA, VM.fileEntries,
          VM.loadV, VM.loadRec, VM.parseTs, hlt]

/-- Witness for `C5_round_trip` at t0 = t1 = 0, id "v1", screenshot
"/static/screenshots/verification.png". -/
theorem C5_round_trip_witness :
    (0 : Int) - 3600 ≤ 0 ∧
    (VM.lookupA (VM.fileEntries
        (VM.registerV 0 "v1" "/static/screenshots/verification.png"
          (some ()) ⟨.absent, [], none⟩).2.file) "v1" =
      some ⟨.isoTs 0, some "/static/screenshots/verification.png",
            some "pending", none, none, none⟩ ∧
     VM.lookupA ((VM.loadV 0
        ⟨(VM.registerV 0 "v1" "/static/screenshots/verification.png"
          (some ()) ⟨.absent, [], none⟩).2.file, [], none⟩).2).mem "v1" =
      some ⟨"v1", 0, "/static/screenshots/verification.png",
            "pending", none, some false, none⟩) :=
  ⟨by decide, C5_round_trip 0 0 "v1" "/static/screenshots/verification.png" (by decide)⟩

/-- Claim C6: for a persisted pending record with timestamp `t`, the id
appears in `list_pending_verifications()` at time `now` exactly when the
record is within the one-hour horizon (so a 61-minute-old record, `t =
now - 3660`, is hidden while a 59-minute-old one, `t = now - 3540`, is
listed), and a record marked completed never appears regardless of its
age. -/
theorem C6_staleness (now t : Int) (i shot : String) :
    ((VM.lookupA (VM.listPendingV now
        ⟨.valid [(i, VM.pendingDisk t shot)], [], none⟩).1 i ≠ none) ↔
      now - 3600 ≤ t) ∧
    VM.lookupA (VM.listPendingV now
        ⟨.valid [(i, VM.completedDisk t shot)], [], none⟩).1 i = none := by
  constructor
  · by_cases h : t < now - 3600
    · simp [VM.listPendingV, VM.loadV, VM.loadRec, VM.parseTs, VM.pendingDisk,
            VM.lookupA, VM.insertA, h]
      omega
    · simp [VM.listPendingV, VM.loadV, VM.loadRec, VM.parseTs, VM.pendingDisk,
            VM.lookupA, VM.insertA, h]
      omega
  · by_cases h : t < now - 3600 <;>
      simp [VM.listPendingV, VM.loadV, VM.loadRec, VM.parseTs, VM.completedDisk,
            VM.lookupA, VM.insertA, h]

/-- Claim C8, counterexample: registering a verification and then
cancelling it (as the timeout path of `handle_verification_screen`
does) makes `cancel_verification` return true, but the record is popped
from the registry: no record remains under the id, and in particular no
record with status "cancelled" exists — refuting the claimed
pending→cancelled transition with the record retained. -/
theorem C8_counterexample :
    (VM.cancelV "v1"
      (VM.registerV 0 "v1" "shot.png" (some ()) ⟨.absent, [], none⟩).2).1 = true ∧
    VM.lookupA (VM.cancelV "v1"
      (VM.registerV 0 "v1" "shot.png" (some ()) ⟨.absent, [], none⟩).2).2.mem "v1" = none ∧
    ¬ (∃ r : VM.MemRec,
        VM.lookupA (VM.cancelV "v1"
          (VM.registerV 0 "v1" "shot.png" (some ()) ⟨.absent, [], none⟩).2).2.mem "v1" =
          some r ∧ r.status = "cancelled") := by
  refine ⟨rfl, rfl, ?_⟩
  rintro ⟨r, hr, -⟩
  simp [VM.cancelV, VM.registerV, VM.saveV, VM.serializeRec, VM.insertA, VM.eraseA,
        VM.lookupA] at hr

/-- Claim C8 (amended): cancelling a pending verification (which the
waiting loop does on timeout) removes the record from the registry
entirely — from the in-memory dict and, via the immediate save, from
the persisted file — and returns true; no "cancelled" status is ever
stored, and the cancellation touches nothing else. -/
theorem C8_cancel_removes (now : Int) (i shot : String) (d : Option Unit) :
    (VM.cancelV i (VM.registerV now i shot d ⟨.absent, [], none⟩).2).1 = true ∧
    VM.lookupA (VM.cancelV i
      (VM.registerV now i shot d ⟨.absent, [], none⟩).2).2.mem i = none ∧
    VM.lookupA (VM.fileEntries (VM.cancelV i
      (VM.registerV now i shot d ⟨.absent, [], none⟩).2).2.file) i = none := by
  refine ⟨?_, ?_, ?_⟩ <;>
    simp [VM.cancelV, VM.registerV, VM.saveV, VM.serializeRec, VM.insertA, VM.eraseA,
          VM.lookupA, VM.fileEntries]

/-- Claim C7, counterexample: a session file that exists but contains
invalid JSON makes `load_session` return false while leaving the
invalid file on disk (it is deleted only in the
`NoSuchElementException` branch), so "after load_session returns false
no stale (invalid) session file remains on disk" is refuted; a second
concrete input shows the same for a generic exception during the
restore of a non-empty cookie jar. -/
theorem C7_counterexample :
    ((Auth.loadSession ⟨.unreadable, .found⟩).1 = false ∧
     ¬ ((Auth.loadSession ⟨.unreadable, .found⟩).2 = .absent)) ∧
    ((Auth.loadSession ⟨.jar [1700000000], .otherError⟩).1 = false ∧
     ¬ ((Auth.loadSession ⟨.jar [1700000000], .otherError⟩).2 = .absent)) := by
  exact ⟨⟨rfl, by decide⟩, ⟨rfl, by decide⟩⟩

/-- Claim C7 (amended): `load_session` returns false whenever login
verification fails, and it deletes the session file exactly in the case
where the authenticated-only element is not found
(`NoSuchElementException`); when the cookie file is unreadable or empty,
or when a different exception occurs during the restore, it returns
false without deleting the file, so a stale session file may remain on
disk. -/
theorem C7_amended (e : Int) (cs : List Int) (o : Auth.VerifyOutcome) :
    Auth.loadSession ⟨.jar (e :: cs), .notFound⟩ = (false, .absent) ∧
    Auth.loadSession ⟨.jar (e :: cs), .otherError⟩ = (false, .jar (e :: cs)) ∧
    Auth.loadSession ⟨.unreadable, o⟩ = (false, .unreadable) ∧
    Auth.loadSession ⟨.jar [], o⟩ = (false, .jar []) := by
  exact ⟨rfl, rfl, rfl, rfl⟩

/-- Claim C9: items A, B, C submitted with priority 1 in that order into
an initialized service are passed to the posting routine by the worker in
the order A, B, C; in general a queued backlog is drained in FIFO order
(second conjunct, for any queue contents and service flags). -/
theorem C9_fifo (post : String → Bool) (now1 now2 now3 : Nat)
    (a b c sa sb sc : String) :
    (TS.workerRun 3
      ((TS.sendTweet TS.plainEnv post now3
        ((TS.sendTweet TS.plainEnv post now2
          ((TS.sendTweet TS.plainEnv post now1 TS.readyState a 1 sa).2.1)
          b 1 sb).2.1)
        c 1 sc).2.1)).2 = [a, b, c] ∧
    (∀ (d i : Bool) (q : List TS.TweetData),
      (TS.workerRun q.length ⟨true, true, d, i, q, true⟩).2 =
        q.map (fun x => x.content)) := by
  constructor
  · simp [TS.sendTweet, TS.sendCore, TS.isInit, TS.readyState, TS.workerRun, TS.workerStep]
  · intro d i q
    exact TS.workerRun_drain d i q

/-- Claim C10, counterexample: calling `submit` on an uninitialized
service whose lazy initialization fails returns false, enqueues nothing
and attempts no post — but the resulting service state is NOT unchanged:
the failed `initialize` leaves the partially constructed scraper
assigned (`self.scraper` becomes non-None), so the state differs from
the initial one. -/
theorem C10_counterexample :
    (TS.sendTweet TS.failEnv (fun _ => true) 0 ⟨false, false, false, false, [], false⟩
      "status update" 1 "automated").1 = false ∧
    (TS.sendTweet TS.failEnv (fun _ => true) 0 ⟨false, false, false, false, [], false⟩
      "status update" 1 "automated").2.2 = [] ∧
    (TS.sendTweet TS.failEnv (fun _ => true) 0 ⟨false, false, false, false, [], false⟩
      "status update" 1 "automated").2.1.tweetQueue = [] ∧
    ¬ ((TS.sendTweet TS.failEnv (fun _ => true) 0 ⟨false, false, false, false, [], false⟩
      "status update" 1 "automated").2.1 = ⟨false, false, false, false, [], false⟩) := by
  refine ⟨rfl, rfl, rfl, ?_⟩
  decide

/-- Claim C10 (amended): if `submit` is called while the service is
uninitialized and the lazy initialization attempt fails, `submit`
returns false, no work item is enqueued, no posting is attempted, and
the service remains uninitialized — but the state is not fully
unchanged: the failed attempt leaves a non-None partially constructed
scraper reference stored on the service. -/
theorem C10_amended (env : TS.InitEnv) (post : String → Bool) (now : Nat)
    (content source : String) (priority : Nat)
    (h1 : env.scraperInitOk = false) (h2 : env.verificationHandled = false) :
    (TS.sendTweet env post now ⟨false, false, false, false, [], false⟩
      content priority source).1 = false ∧
    (TS.sendTweet env post now ⟨false, false, false, false, [], false⟩
      content priority source).2.2 = [] ∧
    (TS.sendTweet env post now ⟨false, false, false, false, [], false⟩
      content priority source).2.1.tweetQueue = [] ∧
    TS.isInit (TS.sendTweet env post now ⟨false, false, false, false, [], false⟩
      content priority source).2.1 = false ∧
    (TS.sendTweet env post now ⟨false, false, false, false, [], false⟩
      content priority source).2.1.scraperPresent = true := by
  simp [TS.sendTweet, TS.sendCore, TS.initService, TS.isInit, h1, h2]

/-- Witness for `C10_amended` at the all-false environment. -/
theorem C10_amended_witness :
    TS.failEnv.scraperInitOk = false ∧ TS.failEnv.verificationHandled = false ∧
    ((TS.sendTweet TS.failEnv (fun _ => true) 0 ⟨false, false, false, false, [], false⟩
      "status update" 1 "automated").1 = false ∧
     (TS.sendTweet TS.failEnv (fun _ => true) 0 ⟨false, false, false, false, [], false⟩
      "status update" 1 "automated").2.2 = [] ∧
     (TS.sendTweet TS.failEnv (fun _ => true) 0 ⟨false, false, false, false, [], false⟩
      "status update" 1 "automated").2.1.tweetQueue = [] ∧
     TS.isInit (TS.sendTweet TS.failEnv (fun _ => true) 0 ⟨false, false, false, false, [], false⟩
      "status update" 1 "automated").2.1 = false ∧
     (TS.sendTweet TS.failEnv (fun _ => true) 0 ⟨false, false, false, false, [], false⟩
      "status update" 1 "automated").2.1.scraperPresent = true) :=
  ⟨rfl, rfl, C10_amended TS.failEnv (fun _ => true) 0 "status update" "automated" 1 rfl rfl⟩
